import Mathlib

/-!
Verification of the user-credential persistence core of the blog server:
the `User` entity (src/server/db/users.ts), its validation rules, the
error taxonomy (src/server/db/errors.ts) and the pooled `QueryDispatcher`
(src/server/db/dispatch.ts), embedded shallowly over an explicit store
state (the `users` table as a list of rows).
-/

namespace Blog

/-- A bcrypt hash value. Models the external `bcrypt` library: `bcrypt.hash`
packs the salt and the hashed input so that `bcrypt.compare` succeeds exactly
when the candidate equals the input the hash was computed from. -/
structure BHash where
  salt : Nat
  content : String
deriving DecidableEq

/-- Models `bcrypt.hash(password, salt)`. -/
def bcryptHash (password : String) (salt : Nat) : BHash :=
  { salt := salt, content := password }

/-- Models `bcrypt.compare(password, hash)`. -/
def bcryptCompare (password : String) (h : BHash) : Bool :=
  password == h.content

/-- A row of the `users` table, also the `User` entity value
(fields `id`, `username`, `hash`, `created_at` as in `UserDetails`). -/
structure User where
  id : String
  username : String
  hash : BHash
  created_at : Nat
deriving DecidableEq

/-- The state of the `users` table: its list of rows. -/
abbrev StoreState := List User

/-- The error taxonomy of src/server/db/errors.ts:
`InvalidUsernameError`, `InvalidPasswordError`, `UsernameInUseError`,
`InvalidInputError`. -/
inductive DbError where
  | invalidUsername (errors : List String)
  | invalidPassword (errors : List String)
  | usernameInUse
  | invalidInput
deriving DecidableEq

/-- A driver-level rejection of a statement by the Postgres store. -/
inductive ExecError where
  | malformedUuid
  | pkViolation
  | uniqueViolation
  | valueTooLong
deriving DecidableEq

/-- The parameterized SQL statements issued by the `User` entity operations
(each operation issues exactly one). -/
inductive Stmt where
  | selectById (id : String)
  | selectByUsername (username : String)
  | deleteById (id : String)
  | deleteByUsername (username : String)
  | insertUser (row : User)
deriving DecidableEq

/-- `validator.trim(s)`: strips leading and trailing whitespace. -/
def strTrim (s : String) : String :=
  ⟨((s.toList.dropWhile Char.isWhitespace).reverse.dropWhile
      Char.isWhitespace).reverse⟩

/-- Hexadecimal digit, for UUID well-formedness. -/
def isHexDigit (c : Char) : Bool :=
  c.isDigit || ('a' ≤ c && c ≤ 'f') || ('A' ≤ c && c ≤ 'F')

/-- Well-formedness of a string for the store's `UUID` column type
(canonical 8-4-4-4-12 form); a parameter that fails this check makes the
store reject the statement ("invalid input syntax for type uuid"). -/
def isValidUuid (s : String) : Bool :=
  s.length == 36 &&
    s.toList.enum.all fun p =>
      if p.1 = 8 ∨ p.1 = 13 ∨ p.1 = 18 ∨ p.1 = 23 then p.2 == '-'
      else isHexDigit p.2

/-- Execution of one statement by the store, per the schema
`users(id UUID PRIMARY KEY, username VARCHAR(16) UNIQUE, hash TEXT,
created_at TIMESTAMPTZ)`: a malformed UUID parameter, an over-long
username, or a primary-key/uniqueness violation rejects the statement;
otherwise the statement returns its `RETURNING *` (or selected) rows and
the updated table. -/
def execStmt (s : Stmt) (st : StoreState) :
    Except ExecError (List User × StoreState) :=
  match s with
  | .selectById id =>
      if !isValidUuid id then .error .malformedUuid
      else .ok (st.filter (fun r => r.id == id), st)
  | .selectByUsername username =>
      .ok (st.filter (fun r => r.username == username), st)
  | .deleteById id =>
      if !isValidUuid id then .error .malformedUuid
      else .ok (st.filter (fun r => r.id == id),
                st.filter (fun r => r.id != id))
  | .deleteByUsername username =>
      .ok (st.filter (fun r => r.username == username),
           st.filter (fun r => r.username != username))
  | .insertUser row =>
      if !isValidUuid row.id then .error .malformedUuid
      else if 16 < row.username.length then .error .valueTooLong
      else if st.any (fun r => r.id == row.id) then .error .pkViolation
      else if st.any (fun r => r.username == row.username) then
        .error .uniqueViolation
      else .ok ([row], st ++ [row])

/-- The dispatcher's connection pool; `inUse` counts connections checked
out of the pool. -/
structure PoolState where
  inUse : Nat
deriving DecidableEq

/-- `pool.connect()`: check a connection out of the pool. -/
def PoolState.connect (p : PoolState) : PoolState :=
  { inUse := p.inUse + 1 }

/-- `client.release()`: return the connection to the pool. -/
def PoolState.release (p : PoolState) : PoolState :=
  { inUse := p.inUse - 1 }

namespace QueryDispatcher

/-- `QueryDispatcher.dispatch(query, values)`: acquires a pooled connection,
executes the statement, and — through `finally { client.release(); return
data; }` — releases the connection and returns the data on both the success
and the statement-error path, the latter leaving `data` undefined instead of
propagating the driver error. -/
def dispatch (pool : PoolState) (st : StoreState) (s : Stmt) :
    Option (List User) × StoreState × PoolState :=
  let acquired := pool.connect
  match execStmt s st with
  | .ok (rows, st2) => (some rows, st2, acquired.release)
  | .error _ => (none, st, acquired.release)

end QueryDispatcher

namespace User

/-- `User.dispatchQuery`: forwards to the class-level dispatcher; the pool
accounting does not affect the data or the table. -/
def dispatchQuery (st : StoreState) (s : Stmt) :
    Option (List User) × StoreState :=
  let response := QueryDispatcher.dispatch { inUse := 0 } st s
  (response.1, response.2.1)

/-- `User.queryWasInvalid(result)`: the dispatch result is undefined. -/
def queryWasInvalid (result : Option (List User)) : Bool :=
  result.isNone

/-- `User.queryResultIsEmpty(result)`: the query returned zero rows. -/
def queryResultIsEmpty (rows : List User) : Bool :=
  rows.length == 0

/-- `User.parseSingleQueryResult(result)`: the first returned row. -/
def parseSingleQueryResult (rows : List User) : Option User :=
  rows.head?

/-- `User.validPassword(password)`: bcrypt-compares the candidate against
the stored hash. -/
def validPassword (u : User) (password : String) : Bool :=
  bcryptCompare password u.hash

/-- The public JSON shape of a user: `id`, `username`, `created_at`. -/
structure UserJSON where
  id : String
  username : String
  created_at : Nat
deriving DecidableEq

/-- `User.prototype.toJSON()`. -/
def toJSON (u : User) : UserJSON :=
  { id := u.id, username := u.username, created_at := u.created_at }

/-- `validator.isLength(s, { min, max })`. -/
def isLength (s : String) (lo hi : Nat) : Bool :=
  lo ≤ s.length && s.length ≤ hi

/-- `validator.isAlphanumeric(s)`: nonempty and every character is an
ASCII letter or digit. -/
def isAlphanumeric (s : String) : Bool :=
  1 ≤ s.length && s.toList.all Char.isAlphanum

/-- `User.validateUsername(username)`: trims, pushes "length" when the
trimmed form is not 3–16 characters and "alphanumeric" when it is not
alphanumeric, and throws `InvalidUsernameError` with the collected list
when it is nonempty. -/
def validateUsername (username : String) : Except DbError Bool :=
  let trimmedUsername := strTrim username
  let errors : List String :=
    (if isLength trimmedUsername 3 16 then [] else ["length"]) ++
    (if isAlphanumeric trimmedUsername then [] else ["alphanumeric"])
  if 0 < errors.length then .error (.invalidUsername errors)
  else .ok true

/-- The `password-validator` schema
`is().min(8).is().max(50).has().not().spaces()` run with `{ list: true }`:
the names of the failed rules, in registration order. -/
def passwordValidatorCheck (password : String) : List String :=
  (if 8 ≤ password.length then [] else ["min"]) ++
  (if password.length ≤ 50 then [] else ["max"]) ++
  (if password.toList.any Char.isWhitespace then ["spaces"] else [])

/-- `User.validatePassword(password)`: trims, runs the password-validator
schema, and throws `InvalidPasswordError` with the failed-rule list when
it is nonempty. -/
def validatePassword (password : String) : Except DbError Bool :=
  let trimmedPassword := strTrim password
  let errors := passwordValidatorCheck trimmedPassword
  if 0 < errors.length then .error (.invalidPassword errors)
  else .ok true

/-- The row `register` inserts: `options.id || uuidv4()` (a caller-supplied
empty string is falsy and falls back to the generated id), the trimmed
username, the bcrypt hash of the trimmed password, and the server
timestamp. -/
def registerRow (username password : String) (optId : Option String)
    (genId : String) (now salt : Nat) : User :=
  { id := match optId with
          | some s => if s = "" then genId else s
          | none => genId
    username := strTrim username
    hash := bcryptHash (strTrim password) salt
    created_at := now }

/-- `User.register({ username, password }, options)`: validates username
then password, builds the row, dispatches the INSERT, throws
`UsernameInUseError` when the dispatch result is undefined, and otherwise
parses the returned row. Also returns the updated table and the list of
statements dispatched during the call. -/
def register (st : StoreState) (username password : String)
    (optId : Option String) (genId : String) (now salt : Nat) :
    Except DbError (Option User) × StoreState × List Stmt :=
  match validateUsername username with
  | .error e => (.error e, st, [])
  | .ok _ =>
    match validatePassword password with
    | .error e => (.error e, st, [])
    | .ok _ =>
      let row := registerRow username password optId genId now salt
      let response := dispatchQuery st (Stmt.insertUser row)
      match response.1 with
      | none => (.error .usernameInUse, response.2, [Stmt.insertUser row])
      | some rows =>
          (.ok (parseSingleQueryResult rows), response.2,
           [Stmt.insertUser row])

/-- `User.findById(id)`. -/
def findById (st : StoreState) (id : String) :
    Except DbError (Option User) × StoreState :=
  let response := dispatchQuery st (Stmt.selectById id)
  if queryWasInvalid response.1 then (.error .invalidInput, response.2)
  else
    let rows := response.1.getD []
    if queryResultIsEmpty rows then (.ok none, response.2)
    else (.ok (parseSingleQueryResult rows), response.2)

/-- `User.findByUsername(username)`: the username parameter is passed to
the store verbatim. -/
def findByUsername (st : StoreState) (username : String) :
    Except DbError (Option User) × StoreState :=
  let response := dispatchQuery st (Stmt.selectByUsername username)
  if queryWasInvalid response.1 then (.error .invalidInput, response.2)
  else
    let rows := response.1.getD []
    if queryResultIsEmpty rows then (.ok none, response.2)
    else (.ok (parseSingleQueryResult rows), response.2)

/-- `User.deleteById(id)`: throws `InvalidInputError` when the statement
was rejected, returns undefined when no row matched, and otherwise the
deleted row. -/
def deleteById (st : StoreState) (id : String) :
    Except DbError (Option User) × StoreState :=
  let response := dispatchQuery st (Stmt.deleteById id)
  if queryWasInvalid response.1 then (.error .invalidInput, response.2)
  else
    let rows := response.1.getD []
    if queryResultIsEmpty rows then (.ok none, response.2)
    else (.ok (parseSingleQueryResult rows), response.2)

/-- `User.deleteByUsername(username)`: the username parameter is passed to
the store verbatim. -/
def deleteByUsername (st : StoreState) (username : String) :
    Except DbError (Option User) × StoreState :=
  let response := dispatchQuery st (Stmt.deleteByUsername username)
  if queryWasInvalid response.1 then (.error .invalidInput, response.2)
  else
    let rows := response.1.getD []
    if queryResultIsEmpty rows then (.ok none, response.2)
    else (.ok (parseSingleQueryResult rows), response.2)

end User

/-- A concrete well-formed UUID. -/
def uuid0 : String := "00000000-0000-0000-0000-000000000000"

/-- A second concrete well-formed UUID, distinct from `uuid0`. -/
def uuid1 : String := "11111111-1111-1111-1111-111111111111"

/-- A concrete pre-existing row occupying the username "alice". -/
def row0 : User :=
  { id := uuid0, username := "alice"
    hash := { salt := 0, content := "h" }, created_at := 0 }

lemma dispatchQuery_ok {s : Stmt} {st : StoreState} {rows : List User}
    {st2 : StoreState} (h : execStmt s st = Except.ok (rows, st2)) :
    User.dispatchQuery st s = (some rows, st2) := by
  simp [User.dispatchQuery, QueryDispatcher.dispatch, h]

lemma dispatchQuery_err {s : Stmt} {st : StoreState} {e : ExecError}
    (h : execStmt s st = Except.error e) :
    User.dispatchQuery st s = (none, st) := by
  simp [User.dispatchQuery, QueryDispatcher.dispatch, h]

lemma validateUsername_error_shape {u : String} {e : DbError}
    (h : User.validateUsername u = Except.error e) :
    ∃ errs, e = DbError.invalidUsername errs := by
  by_cases h1 : User.isLength (strTrim u) 3 16 <;>
    by_cases h2 : User.isAlphanumeric (strTrim u) <;>
    simp [User.validateUsername, h1, h2] at h <;>
    exact ⟨_, h.symm⟩

lemma validatePassword_error_shape {p : String} {e : DbError}
    (h : User.validatePassword p = Except.error e) :
    ∃ errs, e = DbError.invalidPassword errs := by
  simp only [User.validatePassword] at h
  split at h
  · injection h with h2
    exact ⟨_, h2.symm⟩
  · simp at h

lemma execStmt_insert_ok {row : User} {st : StoreState} {rows : List User}
    {st2 : StoreState}
    (h : execStmt (Stmt.insertUser row) st = Except.ok (rows, st2)) :
    rows = [row] ∧ st2 = st ++ [row] ∧ isValidUuid row.id = true
    ∧ row.username.length ≤ 16
    ∧ (∀ r ∈ st, r.id ≠ row.id) ∧ (∀ r ∈ st, r.username ≠ row.username) := by
  simp only [execStmt] at h
  split at h
  · simp at h
  split at h
  · simp at h
  split at h
  · simp at h
  split at h
  · simp at h
  rename_i h1 h2 h3 h4
  simp only [Except.ok.injEq, Prod.mk.injEq] at h
  refine ⟨h.1.symm, h.2.symm, ?_, by omega, ?_, ?_⟩
  · simpa using h1
  · intro r hr hid
    exact h3 (by simp [List.any_eq_true]; exact ⟨r, hr, by simp [hid]⟩)
  · intro r hr hname
    exact h4 (by simp [List.any_eq_true]; exact ⟨r, hr, by simp [hname]⟩)

lemma register_ok_eq {st : StoreState} {username password : String}
    {optId : Option String} {genId : String} {now salt : Nat} {u : User}
    (hreg : (User.register st username password optId genId now salt).1
      = Except.ok (some u)) :
    u = User.registerRow username password optId genId now salt
    ∧ User.register st username password optId genId now salt
        = (Except.ok (some u), st ++ [u], [Stmt.insertUser u])
    ∧ (∀ r ∈ st, r.username ≠ u.username) ∧ (∀ r ∈ st, r.id ≠ u.id)
    ∧ isValidUuid u.id = true := by
  cases hu : User.validateUsername username with
  | error e => simp [User.register, hu] at hreg
  | ok b =>
  cases hp : User.validatePassword password with
  | error e => simp [User.register, hu, hp] at hreg
  | ok b2 =>
  cases hex : execStmt
      (Stmt.insertUser (User.registerRow username password optId genId now salt)) st with
  | error e => simp [User.register, hu, hp, dispatchQuery_err hex] at hreg
  | ok pr =>
    obtain ⟨rows, st2⟩ := pr
    obtain ⟨hrows, hst2, hvalid, hlen, hid, hname⟩ := execStmt_insert_ok hex
    subst hrows
    subst hst2
    have hregeq : User.register st username password optId genId now salt
        = (Except.ok (some (User.registerRow username password optId genId now salt)),
           st ++ [User.registerRow username password optId genId now salt],
           [Stmt.insertUser (User.registerRow username password optId genId now salt)]) := by
      simp [User.register, hu, hp, dispatchQuery_ok hex, User.parseSingleQueryResult]
    rw [hregeq] at hreg
    simp at hreg
    subst hreg
    exact ⟨rfl, hregeq, hname, hid, hvalid⟩

/-- C2: for every query and parameter list, when statement execution fails,
`dispatch` yields an absent result instead of propagating the driver error,
and the acquired connection is released back to the pool on every exit path:
the pool state after the call equals the pool state before it,
unconditionally, and the data is `none` on the error path and the returned
rows on the success path. -/
theorem dispatch_absorbs_errors_and_releases (pool : PoolState)
    (st : StoreState) (s : Stmt) :
    (QueryDispatcher.dispatch pool st s).2.2 = pool
    ∧ (∀ e, execStmt s st = Except.error e →
        (QueryDispatcher.dispatch pool st s).1 = none)
    ∧ (∀ rows st2, execStmt s st = Except.ok (rows, st2) →
        (QueryDispatcher.dispatch pool st s).1 = some rows
        ∧ (QueryDispatcher.dispatch pool st s).2.1 = st2) := by
  refine ⟨?_, ?_, ?_⟩
  · cases h : execStmt s st <;>
      simp [QueryDispatcher.dispatch, h, PoolState.connect, PoolState.release]
  · intro e h
    simp [QueryDispatcher.dispatch, h]
  · intro rows st2 h
    simp [QueryDispatcher.dispatch, h]

/-- Witness for C2: a concrete rejected statement (malformed UUID) yields an
absent result and leaves the pool state unchanged. -/
theorem dispatch_absorbs_errors_and_releases_witness :
    (QueryDispatcher.dispatch { inUse := 7 } [] (Stmt.deleteById "oops")).1 = none
    ∧ (QueryDispatcher.dispatch { inUse := 7 } [] (Stmt.deleteById "oops")).2.2
        = { inUse := 7 } :=
  ⟨(dispatch_absorbs_errors_and_releases { inUse := 7 } [] (Stmt.deleteById "oops")).2.1
      ExecError.malformedUuid rfl,
   (dispatch_absorbs_errors_and_releases { inUse := 7 } [] (Stmt.deleteById "oops")).1⟩

/-- C6: for every input to `register`, validation of both fields runs
strictly before any store access: if either validation fails, `register`
returns that validation error, the store is unchanged, and the list of
dispatched statements is empty. -/
theorem register_validates_before_dispatch (st : StoreState)
    (username password : String) (optId : Option String) (genId : String)
    (now salt : Nat) :
    (∀ e, User.validateUsername username = Except.error e →
        User.register st username password optId genId now salt
          = (Except.error e, st, []))
    ∧ (∀ e, User.validateUsername username = Except.ok true →
        User.validatePassword password = Except.error e →
        User.register st username password optId genId now salt
          = (Except.error e, st, [])) := by
  constructor
  · intro e h
    simp [User.register, h]
  · intro e h1 h2
    simp [User.register, h1, h2]

/-- Witness for C6: a too-short username and a too-short password with an
embedded space each abort `register` with no dispatched statement. -/
theorem register_validates_before_dispatch_witness :
    User.register [] "ab" "password1" none uuid0 0 0
      = (Except.error (DbError.invalidUsername ["length"]), [], [])
    ∧ User.register [] "alice" "a b" none uuid0 0 0
      = (Except.error (DbError.invalidPassword ["min", "spaces"]), [], []) :=
  ⟨(register_validates_before_dispatch [] "ab" "password1" none uuid0 0 0).1
      (DbError.invalidUsername ["length"]) rfl,
   (register_validates_before_dispatch [] "alice" "a b" none uuid0 0 0).2
      (DbError.invalidPassword ["min", "spaces"]) rfl rfl⟩

/-- C8: the public serialization of a `User` exposes exactly `id`,
`username` and `created_at`, and is independent of the credential hash. -/
theorem toJSON_exposes_only_public_fields (u : User) :
    User.toJSON u
      = { id := u.id, username := u.username, created_at := u.created_at }
    ∧ ∀ h : BHash, User.toJSON { u with hash := h } = User.toJSON u :=
  ⟨rfl, fun _ => rfl⟩

/-- C9: `register` never resolves to an absent result: it either returns a
typed error or a defined `User`. -/
theorem register_never_absent (st : StoreState) (username password : String)
    (optId : Option String) (genId : String) (now salt : Nat) :
    (∃ e, (User.register st username password optId genId now salt).1
        = Except.error e)
    ∨ (∃ u, (User.register st username password optId genId now salt).1
        = Except.ok (some u)) := by
  cases hu : User.validateUsername username with
  | error e => exact Or.inl ⟨e, by simp [User.register, hu]⟩
  | ok b =>
  cases hp : User.validatePassword password with
  | error e => exact Or.inl ⟨e, by simp [User.register, hu, hp]⟩
  | ok b2 =>
  cases hex : execStmt
      (Stmt.insertUser (User.registerRow username password optId genId now salt)) st with
  | error e =>
      exact Or.inl ⟨DbError.usernameInUse,
        by simp [User.register, hu, hp, dispatchQuery_err hex]⟩
  | ok pr =>
      obtain ⟨rows, st2⟩ := pr
      obtain ⟨hrows, -, -, -, -, -⟩ := execStmt_insert_ok hex
      subst hrows
      exact Or.inr ⟨User.registerRow username password optId genId now salt,
        by simp [User.register, hu, hp, dispatchQuery_ok hex, User.parseSingleQueryResult]⟩

lemma validateUsername_ok_iff (s : String) :
    User.validateUsername s = Except.ok true ↔
      (User.isLength (strTrim s) 3 16 = true
        ∧ User.isAlphanumeric (strTrim s) = true) := by
  by_cases h1 : User.isLength (strTrim s) 3 16 <;>
    by_cases h2 : User.isAlphanumeric (strTrim s) <;>
    simp [User.validateUsername, h1, h2]

/-- C3: `validateUsername` succeeds exactly when the trimmed input has
length in [3,16] and every character alphanumeric; on failure the violation
list contains "length" exactly when the length rule is violated and
"alphanumeric" exactly when the alphanumeric rule is violated (both checks
run, no short-circuit); the input "a&" yields both violations. -/
theorem validateUsername_spec (s : String) :
    (User.validateUsername s = Except.ok true ↔
      (3 ≤ (strTrim s).length ∧ (strTrim s).length ≤ 16
        ∧ ∀ c ∈ (strTrim s).toList, c.isAlphanum))
    ∧ (∀ errs, User.validateUsername s
          = Except.error (DbError.invalidUsername errs) →
        (("length" ∈ errs ↔ User.isLength (strTrim s) 3 16 = false)
          ∧ ("alphanumeric" ∈ errs ↔ User.isAlphanumeric (strTrim s) = false)))
    ∧ User.validateUsername "a&"
        = Except.error (DbError.invalidUsername ["length", "alphanumeric"]) := by
  refine ⟨?_, ?_, rfl⟩
  · rw [validateUsername_ok_iff]
    simp only [User.isLength, User.isAlphanumeric, Bool.and_eq_true,
      decide_eq_true_eq, List.all_eq_true]
    constructor
    · rintro ⟨⟨h3, h16⟩, h1len, hall⟩
      exact ⟨h3, h16, hall⟩
    · rintro ⟨h3, h16, hall⟩
      exact ⟨⟨h3, h16⟩, by omega, hall⟩
  · intro errs h
    by_cases h1 : User.isLength (strTrim s) 3 16 <;>
      by_cases h2 : User.isAlphanumeric (strTrim s) <;>
      (try simp only [Bool.not_eq_true] at h1) <;>
      (try simp only [Bool.not_eq_true] at h2) <;>
      simp [User.validateUsername, h1, h2] at h <;>
      (try subst h) <;>
      simp [h1, h2]

/-- Witness for C3: at the concrete failing input "a&" the reported
violation list is exactly the violated rules. -/
theorem validateUsername_spec_witness :
    ("length" ∈ ["length", "alphanumeric"]
        ↔ User.isLength (strTrim "a&") 3 16 = false)
    ∧ ("alphanumeric" ∈ ["length", "alphanumeric"]
        ↔ User.isAlphanumeric (strTrim "a&") = false) :=
  (validateUsername_spec "a&").2.1 ["length", "alphanumeric"] rfl

/-- C4: `validatePassword` succeeds exactly when the trimmed input has
length in [8,50] and contains no whitespace; a password whose whitespace is
only leading/trailing is accepted, one with an embedded space is rejected,
and the failed rules are accumulated as distinct tags. -/
theorem validatePassword_spec (s : String) :
    (User.validatePassword s = Except.ok true ↔
      (8 ≤ (strTrim s).length ∧ (strTrim s).length ≤ 50
        ∧ (strTrim s).toList.any Char.isWhitespace = false))
    ∧ (∀ errs, User.validatePassword s
          = Except.error (DbError.invalidPassword errs) →
        (("min" ∈ errs ↔ ¬ 8 ≤ (strTrim s).length)
          ∧ ("max" ∈ errs ↔ ¬ (strTrim s).length ≤ 50)
          ∧ ("spaces" ∈ errs
              ↔ (strTrim s).toList.any Char.isWhitespace = true)))
    ∧ User.validatePassword "     password     " = Except.ok true
    ∧ User.validatePassword "pass word"
        = Except.error (DbError.invalidPassword ["spaces"]) := by
  refine ⟨?_, ?_, rfl, rfl⟩
  · by_cases h1 : 8 ≤ (strTrim s).length <;>
      by_cases h2 : (strTrim s).length ≤ 50 <;>
      by_cases h3 : (strTrim s).toList.any Char.isWhitespace = true <;>
      (try simp only [Bool.not_eq_true] at h3) <;>
      simp [User.validatePassword, User.passwordValidatorCheck, h1, h2, h3,
        -List.any_eq_true]
  · intro errs h
    by_cases h1 : 8 ≤ (strTrim s).length <;>
      by_cases h2 : (strTrim s).length ≤ 50 <;>
      by_cases h3 : (strTrim s).toList.any Char.isWhitespace = true <;>
      (try simp only [Bool.not_eq_true] at h3) <;>
      (try simp only [String.toList] at h3) <;>
      simp [User.validatePassword, User.passwordValidatorCheck, h1, h2, h3,
        -List.any_eq_true] at h <;>
      (try subst h) <;>
      simp [String.toList, h1, h2, h3, -List.any_eq_true]

/-- Witness for C4: at the concrete rejected input "pass word" the reported
violation list is exactly the violated rules. -/
theorem validatePassword_spec_witness :
    ("min" ∈ ["spaces"] ↔ ¬ 8 ≤ (strTrim "pass word").length)
    ∧ ("max" ∈ ["spaces"] ↔ ¬ (strTrim "pass word").length ≤ 50)
    ∧ ("spaces" ∈ ["spaces"]
        ↔ (strTrim "pass word").toList.any Char.isWhitespace = true) :=
  (validatePassword_spec "pass word").2.1 ["spaces"] rfl

/-- C7: `deleteById` returns an absent result (not an error) when the
statement executes but matches no row, and fails with `InvalidInput` when
the store rejects the statement because the id is malformed; the two
outcomes are distinct values. -/
theorem deleteById_absent_vs_invalidInput (st : StoreState) (id : String) :
    (isValidUuid id = true → (∀ r ∈ st, r.id ≠ id) →
        User.deleteById st id = (Except.ok none, st))
    ∧ (isValidUuid id = false →
        User.deleteById st id = (Except.error DbError.invalidInput, st)) := by
  constructor
  · intro hv hnone
    have hf1 : st.filter (fun r => r.id == id) = [] :=
      List.filter_eq_nil_iff.mpr (fun r hr => by simp [hnone r hr])
    have hf2 : st.filter (fun r => r.id != id) = st :=
      List.filter_eq_self.mpr (fun r hr => by simp [bne, hnone r hr])
    have hexec : execStmt (Stmt.deleteById id) st = Except.ok ([], st) := by
      simp [execStmt, hv, hf1, hf2]
    simp [User.deleteById, dispatchQuery_ok hexec, User.queryWasInvalid,
      User.queryResultIsEmpty]
  · intro hv
    have hexec : execStmt (Stmt.deleteById id) st
        = Except.error ExecError.malformedUuid := by
      simp [execStmt, hv]
    simp [User.deleteById, dispatchQuery_err hexec, User.queryWasInvalid]

/-- Witness for C7: deleting a fresh well-formed id returns absent from an
empty table; deleting a malformed id fails with `InvalidInput` and leaves
the table unchanged. -/
theorem deleteById_absent_vs_invalidInput_witness :
    User.deleteById [] uuid0 = (Except.ok none, [])
    ∧ User.deleteById [row0] "not-a-uuid"
        = (Except.error DbError.invalidInput, [row0]) :=
  ⟨(deleteById_absent_vs_invalidInput [] uuid0).1 rfl (by simp),
   (deleteById_absent_vs_invalidInput [row0] "not-a-uuid").2 rfl⟩

lemma register_never_invalidInput (st : StoreState) (username password : String)
    (optId : Option String) (genId : String) (now salt : Nat) :
    ¬ (User.register st username password optId genId now salt).1
        = Except.error DbError.invalidInput := by
  intro hcontra
  cases hu : User.validateUsername username with
  | error e =>
    obtain ⟨errs, rfl⟩ := validateUsername_error_shape hu
    simp [User.register, hu] at hcontra
  | ok b =>
  cases hp : User.validatePassword password with
  | error e =>
    obtain ⟨errs, rfl⟩ := validatePassword_error_shape hp
    simp [User.register, hu, hp] at hcontra
  | ok b2 =>
  cases hex : execStmt
      (Stmt.insertUser (User.registerRow username password optId genId now salt)) st with
  | error e => simp [User.register, hu, hp, dispatchQuery_err hex] at hcontra
  | ok pr =>
    obtain ⟨rows, st2⟩ := pr
    simp [User.register, hu, hp, dispatchQuery_ok hex] at hcontra

/-- C1 counterexample: with valid credentials but a malformed caller-supplied
id, the store rejects the insert for a reason other than the
username-uniqueness constraint (the table is empty), yet `register` raises
`UsernameInUse`, not `InvalidInput`. -/
theorem register_malformed_id_yields_usernameInUse_cex :
    execStmt (Stmt.insertUser
        (User.registerRow "alice" "password1" (some "bad") uuid0 0 0)) []
      = Except.error ExecError.malformedUuid
    ∧ (User.register [] "alice" "password1" (some "bad") uuid0 0 0).1
      = Except.error DbError.usernameInUse :=
  ⟨rfl, rfl⟩

/-- C1 (amended): for every insert issued by `register`, `register` raises
`UsernameInUse` if and only if the store rejects the insert for any reason
(uniqueness violation, malformed caller-supplied id, or any other statement
rejection); `register` itself never reports `InvalidInput`. -/
theorem register_usernameInUse_iff_insert_rejected (st : StoreState)
    (username password : String) (optId : Option String) (genId : String)
    (now salt : Nat)
    (hu : User.validateUsername username = Except.ok true)
    (hp : User.validatePassword password = Except.ok true) :
    ((User.register st username password optId genId now salt).1
        = Except.error DbError.usernameInUse
      ↔ ∃ e, execStmt (Stmt.insertUser
          (User.registerRow username password optId genId now salt)) st
          = Except.error e)
    ∧ ∀ st2 u2 p2 o2 g2 n2 s2,
        (User.register st2 u2 p2 o2 g2 n2 s2).1
          ≠ Except.error DbError.invalidInput := by
  constructor
  · cases hex : execStmt
        (Stmt.insertUser (User.registerRow username password optId genId now salt)) st with
    | error e =>
        simp [User.register, hu, hp, dispatchQuery_err hex, hex]
    | ok pr =>
        obtain ⟨rows, st2⟩ := pr
        simp [User.register, hu, hp, dispatchQuery_ok hex, hex]
  · intro st2 u2 p2 o2 g2 n2 s2
    exact register_never_invalidInput st2 u2 p2 o2 g2 n2 s2

/-- Witness for C1 (amended): registering a username already present is
rejected by the uniqueness constraint and surfaces as `UsernameInUse`. -/
theorem register_usernameInUse_iff_insert_rejected_witness :
    (User.register [row0] "alice" "password1" none uuid1 0 0).1
      = Except.error DbError.usernameInUse :=
  (register_usernameInUse_iff_insert_rejected [row0] "alice" "password1"
      none uuid1 0 0 rfl rfl).1.mpr ⟨ExecError.uniqueViolation, rfl⟩

/-- The user created by the C5 counterexample registration. -/
def cexUser5 : User := User.registerRow "alice" " password1 " none uuid0 0 0

/-- C5 counterexample: " password1 " is a valid password (its trimmed form
has length 9 with no embedded whitespace), registration succeeds and the
user is found under the trimmed username, but the stored hash does NOT
verify against the original (untrimmed) password, because `register` hashed
the trimmed password. -/
theorem register_find_validPassword_original_cex :
    User.validatePassword " password1 " = Except.ok true
    ∧ (User.register [] "alice" " password1 " none uuid0 0 0).1
        = Except.ok (some cexUser5)
    ∧ (User.findByUsername
        (User.register [] "alice" " password1 " none uuid0 0 0).2.1
        "alice").1 = Except.ok (some cexUser5)
    ∧ User.validPassword cexUser5 " password1 " = false :=
  ⟨rfl, rfl, rfl, rfl⟩

/-- C5 (amended): for every registration that succeeds, `findByUsername` on
the trimmed username returns the created user, whose username equals the
trimmed input and whose stored hash verifies against the trimmed original
password (hence against the original exactly when it carries no surrounding
whitespace). -/
theorem register_find_validPassword_trimmed (st : StoreState)
    (username password : String) (optId : Option String) (genId : String)
    (now salt : Nat) (u : User)
    (hreg : (User.register st username password optId genId now salt).1
      = Except.ok (some u)) :
    (User.findByUsername
        (User.register st username password optId genId now salt).2.1
        (strTrim username)).1 = Except.ok (some u)
    ∧ u.username = strTrim username
    ∧ User.validPassword u (strTrim password) = true := by
  obtain ⟨hrow, hregeq, hname, hid, hvalid⟩ := register_ok_eq hreg
  rw [hregeq]
  have husername : u.username = strTrim username := by
    rw [hrow]
    rfl
  refine ⟨?_, husername, ?_⟩
  · have h1 : st.filter (fun r => r.username == strTrim username) = [] :=
      List.filter_eq_nil_iff.mpr
        (fun r hr => by simpa [← husername] using hname r hr)
    have h2 : List.filter (fun r => r.username == strTrim username) [u] = [u] := by
      simp [List.filter_cons, husername]
    have hf : (st ++ [u]).filter (fun r => r.username == strTrim username) = [u] := by
      rw [List.filter_append, h1, h2]
      rfl
    have hexec2 : execStmt (Stmt.selectByUsername (strTrim username)) (st ++ [u])
        = Except.ok ([u], st ++ [u]) := by
      simp [execStmt, hf]
    simp [User.findByUsername, dispatchQuery_ok hexec2, User.queryWasInvalid,
      User.queryResultIsEmpty, User.parseSingleQueryResult]
  · rw [hrow]
    simp [User.validPassword, User.registerRow, bcryptCompare, bcryptHash]

/-- Witness for C5 (amended) at a concrete successful registration. -/
theorem register_find_validPassword_trimmed_witness :
    (User.findByUsername
        (User.register [] "bob42" "secret99" none uuid0 0 0).2.1
        (strTrim "bob42")).1
      = Except.ok (some (User.registerRow "bob42" "secret99" none uuid0 0 0))
    ∧ (User.registerRow "bob42" "secret99" none uuid0 0 0).username
        = strTrim "bob42"
    ∧ User.validPassword (User.registerRow "bob42" "secret99" none uuid0 0 0)
        (strTrim "secret99") = true :=
  register_find_validPassword_trimmed [] "bob42" "secret99" none uuid0 0 0
    (User.registerRow "bob42" "secret99" none uuid0 0 0) rfl

/-- C10: `findByUsername` and `deleteByUsername` pass the username to the
store verbatim while `register` stores it trimmed: a user registered with a
whitespace-padded username is neither found nor deleted when the same
untrimmed string is used (in a store holding no row with that untrimmed
username). -/
theorem untrimmed_lookup_and_delete_absent (st : StoreState)
    (username password : String) (optId : Option String) (genId : String)
    (now salt : Nat) (u : User)
    (hpad : strTrim username ≠ username)
    (hfresh : ∀ r ∈ st, r.username ≠ username)
    (hreg : (User.register st username password optId genId now salt).1
      = Except.ok (some u)) :
    (User.findByUsername
        (User.register st username password optId genId now salt).2.1
        username).1 = Except.ok none
    ∧ User.deleteByUsername
        (User.register st username password optId genId now salt).2.1 username
      = (Except.ok none,
         (User.register st username password optId genId now salt).2.1) := by
  obtain ⟨hrow, hregeq, hname, hid, hvalid⟩ := register_ok_eq hreg
  rw [hregeq]
  have huname : u.username ≠ username := by
    rw [hrow]
    exact hpad
  have hf0 : ∀ r ∈ st ++ [u], r.username ≠ username := by
    intro r hr
    rcases List.mem_append.mp hr with h | h
    · exact hfresh r h
    · simp at h
      subst h
      exact huname
  have hf1 : (st ++ [u]).filter (fun r => r.username == username) = [] :=
    List.filter_eq_nil_iff.mpr (fun r hr => by simpa using hf0 r hr)
  have hf2 : (st ++ [u]).filter (fun r => r.username != username) = st ++ [u] :=
    List.filter_eq_self.mpr (fun r hr => by simpa [bne] using hf0 r hr)
  constructor
  · have hexec2 : execStmt (Stmt.selectByUsername username) (st ++ [u])
        = Except.ok ([], st ++ [u]) := by
      simp [execStmt, hf1]
    simp [User.findByUsername, dispatchQuery_ok hexec2, User.queryWasInvalid,
      User.queryResultIsEmpty]
  · have hexec3 : execStmt (Stmt.deleteByUsername username) (st ++ [u])
        = Except.ok ([], st ++ [u]) := by
      simp [execStmt, hf1, hf2]
    simp [User.deleteByUsername, dispatchQuery_ok hexec3, User.queryWasInvalid,
      User.queryResultIsEmpty]

/-- Witness for C10: a user registered as " alice " (padded) is stored as
"alice" and is invisible to lookup and delete with the padded string. -/
theorem untrimmed_lookup_and_delete_absent_witness :
    (User.findByUsername
        (User.register [] " alice " "password1" none uuid0 0 0).2.1
        " alice ").1 = Except.ok none
    ∧ User.deleteByUsername
        (User.register [] " alice " "password1" none uuid0 0 0).2.1 " alice "
      = (Except.ok none,
         (User.register [] " alice " "password1" none uuid0 0 0).2.1) :=
  untrimmed_lookup_and_delete_absent [] " alice " "password1" none uuid0 0 0
    (User.registerRow " alice " "password1" none uuid0 0 0)
    (by decide) (by simp) rfl

end Blog
